import Mathlib

/-!
Verification of the mlops-labs pipeline workflow specification.

The repository ships lab material for a TFX/KFP pipeline: a pipeline DSL is
compiled into an archive and submitted to an orchestrator, driven either
manually or from a tag-triggered CI workflow.  The concrete DSL and CI files
(`pipeline_dsl.py`, `cloudbuild.yaml`) are documented in the lab README but are
not part of the snapshot, so the pipeline data model, compiler, submission
client and workflow below are modelled from the specification.  The notebook
training function `train_evaluate` and the Terraform configuration `main.tf`
are embedded directly from their sources.
-/

/-- Modelled from the spec: an input reference of a Stage, resolving either to
another stage's output or to an external source (spec section 3; the concrete
DSL file `pipeline_dsl.py` is not in the snapshot). -/
inductive InputRef where
  | stageOutput (stage : String)
  | external (source : String)
deriving DecidableEq

/-- Modelled from the spec: a Stage is a named unit of work with declared
inputs, declared outputs and an executor binding (spec section 3). -/
structure Stage where
  name : String
  inputs : List InputRef
  outputs : List String
  executor : String
deriving DecidableEq

/-- Modelled from the spec: a Pipeline is a collection of Stages plus named
parameters substituted at compile time; its name comes from the
PIPELINE_NAME environment parameter (spec section 3). -/
structure Pipeline where
  name : String
  stages : List Stage
  params : List (String × String)
deriving DecidableEq

/-- Modelled from the spec: the three error kinds of the workflow
(spec section 7). -/
inductive PipelineError where
  | configurationError (param : String)
  | validationError (what : String)
  | transportError (msg : String)
deriving DecidableEq

/-- Modelled from the spec: the compiled archive, a named file consumable by
the orchestrator (spec section 4.2). -/
structure Archive where
  name : String
  content : String
deriving DecidableEq

/-- Serialization of one input reference into the archive text. -/
def serializeInput : InputRef → String
  | .stageOutput s => "stage:" ++ s
  | .external s => "external:" ++ s

/-- Serialization of one stage into the archive text. -/
def serializeStage (st : Stage) : String :=
  st.name ++ "(" ++ String.intercalate "," (st.inputs.map serializeInput) ++ ")"

/-- Modelled from the spec: deterministic serialization of the graph and
parameter bindings into the archive content (spec section 4.2). -/
def serialize (p : Pipeline) : String :=
  p.name ++ ";"
    ++ String.intercalate ";" (p.stages.map serializeStage) ++ ";"
    ++ String.intercalate ";" (p.params.map (fun q => q.1 ++ "=" ++ q.2))

/-- The declared stage names of a pipeline. -/
def declaredNames (p : Pipeline) : List String := p.stages.map Stage.name

/-- An input reference that does not resolve: it names a stage that is not
declared anywhere in the pipeline (external references always resolve). -/
def inputUnresolved (p : Pipeline) : InputRef → Bool
  | .stageOutput s => !((declaredNames p).contains s)
  | .external _ => false

/-- A stage offends when one of its inputs references an undeclared stage. -/
def stageOffends (p : Pipeline) (st : Stage) : Bool :=
  st.inputs.any (inputUnresolved p)

/-- The first stage (in declaration order) with an unresolved input, if any. -/
def firstOffender (p : Pipeline) : Option String :=
  (p.stages.find? (stageOffends p)).map Stage.name

/-- Modelled from the spec: the compiler takes a Pipeline and serializes it
into a versioned archive, failing with a validation error naming the offending
stage when a stage references an undeclared input (spec sections 4.2 and 8);
the archive is named after the pipeline (README: package
`online_news_pipeline.yaml` for the online news pipeline). -/
def compile (p : Pipeline) : Except PipelineError Archive :=
  match firstOffender p with
  | some s => .error (.validationError s)
  | none => .ok { name := p.name ++ ".yaml", content := serialize p }

/-- A file system is a list of path-content pairs; compilation writes one
file into it. -/
abbrev FileSystem := List (String × String)

/-- Modelled from the spec: compilation against a file system writes exactly
one file at the output path on success and leaves the file system unchanged
on error (spec sections 4.2 and 8). -/
def compileToFile (fs : FileSystem) (p : Pipeline) (path : String) :
    FileSystem × Except PipelineError Archive :=
  match compile p with
  | .error e => (fs, .error e)
  | .ok a => ((path, a.content) :: fs, .ok a)

/-- A pipeline with a single stage whose input references a stage name that
is declared nowhere, used to exhibit the validation failure concretely. -/
def ghostPipeline : Pipeline :=
  { name := "bad"
  , stages := [ { name := "trainer"
                , inputs := [InputRef.stageOutput "ghost"]
                , outputs := ["model"]
                , executor := "caip" } ]
  , params := [] }

/-- Claim C1: compilation is a deterministic function of its inputs — two
pipelines with the same stage declarations and the same parameter values
(the pipeline name being one of those parameters) compile to byte-identical
archives, also when written through the file system. -/
theorem compile_deterministic (p q : Pipeline) (fs : FileSystem) (path : String)
    (hn : p.name = q.name) (hs : p.stages = q.stages) (hp : p.params = q.params) :
    compile p = compile q ∧ compileToFile fs p path = compileToFile fs q path := by
  cases p
  cases q
  simp only [Pipeline.mk.injEq] at hn hs hp
  subst hn
  subst hs
  subst hp
  exact ⟨rfl, rfl⟩

/-- Witness for C1: the deterministic-compilation theorem applied at the
concrete single-stage pipeline. -/
theorem compile_deterministic_witness :
    compile ghostPipeline = compile ghostPipeline ∧
      compileToFile [] ghostPipeline "out.yaml" = compileToFile [] ghostPipeline "out.yaml" :=
  compile_deterministic ghostPipeline ghostPipeline [] "out.yaml" rfl rfl rfl

/-- Claim C2: a pipeline with a stage whose input references an undeclared
(non-existent) stage fails compilation with a ValidationError naming an
offending stage, and no output file is produced at the output path. -/
theorem compile_undeclared_input_fails (p : Pipeline) (fs : FileSystem) (path : String)
    (h : ∃ st ∈ p.stages, ∃ t, InputRef.stageOutput t ∈ st.inputs ∧ t ∉ declaredNames p) :
    ∃ st ∈ p.stages, stageOffends p st = true ∧
      compile p = .error (.validationError st.name) ∧
      compileToFile fs p path = (fs, .error (.validationError st.name)) := by
  obtain ⟨st, hst, t, hti, htd⟩ := h
  have hoff : stageOffends p st = true := by
    simp only [stageOffends, List.any_eq_true]
    refine ⟨InputRef.stageOutput t, hti, ?_⟩
    simp [inputUnresolved, htd]
  have hsome : (p.stages.find? (stageOffends p)).isSome := by
    rw [List.find?_isSome]
    exact ⟨st, hst, hoff⟩
  obtain ⟨st', hst'⟩ := Option.isSome_iff_exists.mp hsome
  refine ⟨st', List.mem_of_find?_eq_some hst', List.find?_some hst', ?_, ?_⟩
  · simp [compile, firstOffender, hst']
  · simp [compileToFile, compile, firstOffender, hst']

/-- Witness for C2: the failing compilation exhibited on the concrete
pipeline whose single stage references the undeclared stage "ghost". -/
theorem compile_undeclared_input_fails_witness :
    ∃ st ∈ ghostPipeline.stages, stageOffends ghostPipeline st = true ∧
      compile ghostPipeline = .error (.validationError st.name) ∧
      compileToFile [] ghostPipeline "out.yaml" =
        ([], .error (.validationError st.name)) :=
  compile_undeclared_input_fails ghostPipeline [] "out.yaml"
    ⟨{ name := "trainer"
     , inputs := [InputRef.stageOutput "ghost"]
     , outputs := ["model"]
     , executor := "caip" }, by decide, "ghost", by decide, by decide⟩

/-- Modelled from the spec: the process environment, a finite map of
variable names to values (README lines 82-89). -/
abbrev Env := List (String × String)

/-- Lookup of an environment variable. -/
def lookupEnv (env : Env) (k : String) : Option String :=
  (env.find? fun q => q.1 == k).map Prod.snd

/-- Modelled from the spec: the four required environment parameters of the
pipeline definition — project identifier, pipeline name, region and image
reference (README lines 85-88, spec section 6). -/
def requiredParams : List String :=
  ["PROJECT_ID", "PIPELINE_NAME", "GCP_REGION", "PIPELINE_IMAGE"]

/-- Modelled from the spec: the fixed TFX stage graph of the lab pipeline —
ExampleGen through Pusher, with Dataflow executing the data components and
AI Platform executing Trainer and Pusher (README line 20). -/
def tfxStages : List Stage :=
  [ { name := "ExampleGen"
    , inputs := [InputRef.external "gcs-csv"]
    , outputs := ["examples"], executor := "Dataflow" }
  , { name := "StatisticsGen"
    , inputs := [InputRef.stageOutput "ExampleGen"]
    , outputs := ["statistics"], executor := "Dataflow" }
  , { name := "SchemaGen"
    , inputs := [InputRef.stageOutput "StatisticsGen"]
    , outputs := ["schema"], executor := "Dataflow" }
  , { name := "ExampleValidator"
    , inputs := [InputRef.stageOutput "StatisticsGen", InputRef.stageOutput "SchemaGen"]
    , outputs := ["anomalies"], executor := "Dataflow" }
  , { name := "Transform"
    , inputs := [InputRef.stageOutput "ExampleGen", InputRef.stageOutput "SchemaGen"]
    , outputs := ["transformed-examples", "transform-graph"], executor := "Dataflow" }
  , { name := "Trainer"
    , inputs := [InputRef.stageOutput "Transform", InputRef.stageOutput "SchemaGen"]
    , outputs := ["model"], executor := "AIPlatform" }
  , { name := "Evaluator"
    , inputs := [InputRef.stageOutput "ExampleGen", InputRef.stageOutput "Trainer"]
    , outputs := ["evaluation"], executor := "Dataflow" }
  , { name := "Pusher"
    , inputs := [InputRef.stageOutput "Trainer", InputRef.stageOutput "Evaluator"]
    , outputs := ["pushed-model"], executor := "AIPlatform" } ]

/-- Modelled from the spec: pipeline definition reads the required parameters
from the environment and constructs the fixed stage graph, failing with a
ConfigurationError on the first missing parameter (spec sections 4.1, 6, 7). -/
def definePipeline (env : Env) : Except PipelineError Pipeline :=
  match requiredParams.find? (fun k => (lookupEnv env k).isNone) with
  | some k => .error (.configurationError k)
  | none =>
      .ok { name := (lookupEnv env "PIPELINE_NAME").getD ""
          , stages := tfxStages
          , params := requiredParams.map fun k => (k, (lookupEnv env k).getD "") }

/-- Modelled from the spec: the external orchestrator, seen through its
submission API — whether the endpooint is reachable, and which run identifier
it assigns to an accepted request (spec sections 4.3 and 6). -/
structure Orchestrator where
  reachable : Bool
  assign : String → Option String

/-- Result of one submission: what the client returns, and how many requests
it actually sent to the orchestrator. -/
structure SubmitOutcome where
  result : Except PipelineError String
  requests : Nat

/-- Modelled from the spec: the submission client sends the archive and run
name to the orchestrator exactly once, returning the orchestrator-assigned
run identifier on success, a TransportError when the endpoint is unreachable,
and the orchestrator's rejection unchanged otherwise; there is no local retry
(spec section 4.3). -/
def submit (orc : Orchestrator) (_archive : Archive) (runName : String) : SubmitOutcome :=
  if orc.reachable then
    match orc.assign runName with
    | some rid => { result := .ok rid, requests := 1 }
    | none => { result := .error (.validationError ("rejected run " ++ runName)), requests := 1 }
  else
    { result := .error (.transportError "endpoint unreachable"), requests := 1 }

/-- Observable actions of the end-to-end workflow: attempting a compilation,
and making a network call to the orchestrator. -/
inductive WfEvent where
  | compileAttempt
  | networkCall
deriving DecidableEq

/-- Modelled from the spec: the end-to-end define-compile-submit workflow,
recording which observable actions were performed; definition happens before
compilation, which happens before the network call (spec sections 2 and 7). -/
def buildWorkflow (env : Env) (orc : Orchestrator) (runName : String) :
    Except PipelineError String × List WfEvent :=
  match definePipeline env with
  | .error e => (.error e, [])
  | .ok p =>
      match compile p with
      | .error e => (.error e, [.compileAttempt])
      | .ok a => ((submit orc a runName).result, [.compileAttempt, .networkCall])

/-- An orchestrator that is up and assigns a run identifier derived from the
run name, used to exhibit successful submissions concretely. -/
def demoOrchestrator : Orchestrator :=
  { reachable := true, assign := fun r => some ("id-" ++ r) }

/-- An orchestrator whose endpoint is unreachable. -/
def downOrchestrator : Orchestrator :=
  { reachable := false, assign := fun _ => none }

/-- An environment that is missing PIPELINE_NAME, GCP_REGION and
PIPELINE_IMAGE. -/
def envMissing : Env := [("PROJECT_ID", "p1")]

/-- Claim C3: when a required environment parameter is absent, pipeline
definition fails with a ConfigurationError naming a missing parameter, and
the workflow performs no compilation attempt and no network call. -/
theorem definePipeline_missing_param (env : Env) (orc : Orchestrator) (r k : String)
    (hk : k ∈ requiredParams) (hmiss : lookupEnv env k = none) :
    ∃ m ∈ requiredParams, lookupEnv env m = none ∧
      definePipeline env = .error (.configurationError m) ∧
      buildWorkflow env orc r = (.error (.configurationError m), []) := by
  have hsome : (requiredParams.find? (fun k => (lookupEnv env k).isNone)).isSome := by
    rw [List.find?_isSome]
    exact ⟨k, hk, by simp [hmiss]⟩
  obtain ⟨m, hm⟩ := Option.isSome_iff_exists.mp hsome
  have hmm : lookupEnv env m = none := by
    have h0 := List.find?_some hm
    simpa using h0
  refine ⟨m, List.mem_of_find?_eq_some hm, hmm, ?_, ?_⟩
  · simp [definePipeline, hm]
  · simp [buildWorkflow, definePipeline, hm]

/-- Witness for C3: pipeline definition over an environment holding only
PROJECT_ID fails with a ConfigurationError and an empty action trace. -/
theorem definePipeline_missing_param_witness :
    ∃ m ∈ requiredParams, lookupEnv envMissing m = none ∧
      definePipeline envMissing = .error (.configurationError m) ∧
      buildWorkflow envMissing demoOrchestrator "run-1" =
        (.error (.configurationError m), []) :=
  definePipeline_missing_param envMissing demoOrchestrator "run-1" "PIPELINE_NAME"
    (by decide) (by decide)

/-- Claim C4: the submission client returns a run identifier exactly when the
orchestrator is reachable and accepts the request; an unreachable endpoint
yields a TransportError and no run identifier; on success the returned
identifier is the orchestrator-assigned one; and exactly one request is made,
so there is no local retry. -/
theorem submit_result_characterization (orc : Orchestrator) (a : Archive) (r : String) :
    ((∃ rid, (submit orc a r).result = .ok rid) ↔
        orc.reachable = true ∧ (orc.assign r).isSome = true)
    ∧ (orc.reachable = false →
        (submit orc a r).result = .error (.transportError "endpoint unreachable"))
    ∧ (∀ rid, orc.assign r = some rid → orc.reachable = true →
        (submit orc a r).result = .ok rid)
    ∧ (submit orc a r).requests = 1 := by
  cases horc : orc.reachable <;> cases hass : orc.assign r <;>
    simp [submit, horc, hass]

/-- Witness for C4: the characterization applied to the unreachable
orchestrator, showing the TransportError outcome with a single request. -/
theorem submit_result_characterization_witness :
    (submit downOrchestrator { name := "news.yaml", content := "c" } "run-1").result =
        .error (.transportError "endpoint unreachable") ∧
      (submit downOrchestrator { name := "news.yaml", content := "c" } "run-1").requests = 1 :=
  ⟨(submit_result_characterization downOrchestrator
      { name := "news.yaml", content := "c" } "run-1").2.1 rfl,
    (submit_result_characterization downOrchestrator
      { name := "news.yaml", content := "c" } "run-1").2.2.2⟩

/-- The stage names directly referenced by the inputs of the stage named
`a`: the edges of the stage dependency graph leaving `a`. -/
def directDeps (stages : List Stage) (a : String) : List String :=
  stages.flatMap fun st =>
    if st.name == a then
      st.inputs.filterMap fun i =>
        match i with
        | .stageOutput s => some s
        | .external _ => none
    else []

/-- Saturation of a set of stage names under direct dependencies, with enough
fuel to cover every path length in the graph. -/
def expandDeps (stages : List Stage) : Nat → List String → List String
  | 0, acc => acc
  | n + 1, acc => expandDeps stages n ((acc ++ acc.flatMap (directDeps stages)).dedup)

/-- A stage dependency graph has a cycle when some stage reaches itself
through a nonempty chain of input references. -/
def hasCycle (stages : List Stage) : Bool :=
  stages.any fun st =>
    (expandDeps stages stages.length (directDeps stages st.name)).contains st.name

/-- An input reference resolves against previously declared stages: it names
a previously declared stage, or it is an external source. -/
def resolvesPrior (declared : List String) : InputRef → Bool
  | .stageOutput s => declared.contains s
  | .external _ => true

/-- Every input reference of every stage, scanned in declaration order,
resolves to a previously declared stage's output or an external source. -/
def inputsResolvePrior : List String → List Stage → Bool
  | _, [] => true
  | declared, st :: rest =>
      st.inputs.all (resolvesPrior declared) && inputsResolvePrior (st.name :: declared) rest

/-- The prior-declaration well-formedness of a stage list, starting from no
declared stage. -/
def stagesWellFormed (stages : List Stage) : Bool :=
  inputsResolvePrior [] stages

/-- An environment holding all four required parameters. -/
def envFull : Env :=
  [("PROJECT_ID", "p"), ("PIPELINE_NAME", "n"), ("GCP_REGION", "r"), ("PIPELINE_IMAGE", "i")]

/-- The pipeline that `definePipeline` produces over `envFull`. -/
def tfxDemoPipeline : Pipeline :=
  { name := "n"
  , stages := tfxStages
  , params := [("PROJECT_ID", "p"), ("PIPELINE_NAME", "n"), ("GCP_REGION", "r"),
               ("PIPELINE_IMAGE", "i")] }

/-- Claim C5: every Pipeline produced by the pipeline-definition component is
a directed acyclic graph — it has no cycle, and every input reference of
every stage resolves to a previously declared stage's output or to an
external source. -/
theorem definePipeline_dag (env : Env) (p : Pipeline)
    (h : definePipeline env = .ok p) :
    hasCycle p.stages = false ∧ stagesWellFormed p.stages = true := by
  unfold definePipeline at h
  cases hf : requiredParams.find? (fun k => (lookupEnv env k).isNone) with
  | some k =>
      rw [hf] at h
      exact absurd h (by simp)
  | none =>
      rw [hf] at h
      injection h with h
      subst h
      refine ⟨?_, ?_⟩
      · show hasCycle tfxStages = false
        decide
      · show stagesWellFormed tfxStages = true
        decide

/-- Witness for C5: the DAG invariant exhibited on the pipeline defined over
an environment holding all four required parameters. -/
theorem definePipeline_dag_witness :
    hasCycle tfxDemoPipeline.stages = false ∧
      stagesWellFormed tfxDemoPipeline.stages = true :=
  definePipeline_dag envFull tfxDemoPipeline (by rfl)

/-- Modelled from the spec: the three build steps of the CI/CD workflow —
build the container image, compile the pipeline, submit the run
(spec sections 2 and 4.4; the concrete `cloudbuild.yaml` is not in the
snapshot). -/
inductive WfStep where
  | buildImage
  | compilePipeline
  | submitRun
deriving DecidableEq

/-- Modelled from the spec: the states of the build/deploy workflow state
machine (spec section 4.4). -/
inductive WfState where
  | idle
  | buildingImage
  | compilingPipeline
  | submittingRun
  | done
  | failed (step : WfStep)
deriving DecidableEq

/-- The step being executed in an in-progress state, if any. -/
def stepOf : WfState → Option WfStep
  | .buildingImage => some .buildImage
  | .compilingPipeline => some .compilePipeline
  | .submittingRun => some .submitRun
  | _ => none

/-- Modelled from the spec: the transition function of the workflow state
machine — a trigger moves Idle into Building Image, each in-progress state
advances on success and moves to Failed on failure, and Done and Failed are
terminal (spec section 4.4). -/
def nextState : WfState → Bool → WfState
  | .idle, _ => .buildingImage
  | .buildingImage, true => .compilingPipeline
  | .buildingImage, false => .failed .buildImage
  | .compilingPipeline, true => .submittingRun
  | .compilingPipeline, false => .failed .compilePipeline
  | .submittingRun, true => .done
  | .submittingRun, false => .failed .submitRun
  | .done, _ => .done
  | .failed st, _ => .failed st

/-- The steps of the workflow in execution order. -/
def allSteps : List WfStep := [.buildImage, .compilePipeline, .submitRun]

/-- Modelled from the spec: linear execution of a list of steps given each
step's outcome — the workflow stops at the first failing step, recording the
final state and the steps that actually ran (spec section 4.4). -/
def runSteps (outcome : WfStep → Bool) : List WfStep → WfState × List WfStep
  | [] => (.done, [])
  | st :: rest =>
      if outcome st then
        let r := runSteps outcome rest
        (r.1, st :: r.2)
      else (.failed st, [st])

/-- One full execution of the build/deploy workflow. -/
def runWorkflow (outcome : WfStep → Bool) : WfState × List WfStep :=
  runSteps outcome allSteps

/-- A step outcome assignment where compiling the pipeline fails and the
other steps succeed. -/
def compileFailsOutcome : WfStep → Bool
  | .compilePipeline => false
  | _ => true

/-- Claim C6: the build/deploy workflow is a linear state machine — if every
step succeeds the workflow runs all steps in order and ends Done; otherwise
it ends Failed at the first failing step, having run exactly the steps up to
and including that step, so no step runs after a failure; the Failed state is
reachable from every in-progress state; and Failed is terminal. -/
theorem workflow_linear (outcome : WfStep → Bool) :
    ((∀ st, outcome st = true) → runWorkflow outcome = (.done, allSteps))
    ∧ (∀ s, allSteps.find? (fun st => !(outcome st)) = some s →
        runWorkflow outcome = (.failed s, allSteps.takeWhile outcome ++ [s]))
    ∧ (∀ s st, stepOf s = some st → nextState s false = .failed st)
    ∧ (∀ st b, nextState (.failed st) b = .failed st) := by
  refine ⟨?_, ?_, ?_, ?_⟩
  · intro h
    simp [runWorkflow, runSteps, allSteps, h]
  · intro s hs
    cases h1 : outcome .buildImage <;> cases h2 : outcome .compilePipeline <;>
      cases h3 : outcome .submitRun <;>
      simp only [allSteps, List.find?, h1, h2, h3, Bool.not_true, Bool.not_false] at hs <;>
      first
        | (injection hs with hs
           subst hs
           simp [runWorkflow, runSteps, allSteps, List.takeWhile, h1, h2, h3])
        | cases hs
  · intro s st h
    cases s <;> simp_all [stepOf, nextState]
  · intro st b
    rfl

/-- Witness for C6: the execution in which compiling the pipeline fails —
the workflow stops in the Failed state naming that step, with only the image
build and the failing compile step having run. -/
theorem workflow_linear_witness :
    runWorkflow compileFailsOutcome =
      (.failed .compilePipeline, allSteps.takeWhile compileFailsOutcome ++ [.compilePipeline]) :=
  (workflow_linear compileFailsOutcome).2.1 .compilePipeline (by decide)

/-- The 6-stage linear pipeline of the worked example, named "news", with
parameters project "p1", region "us-central1" and pipeline_name "news". -/
def newsPipeline : Pipeline :=
  { name := "news"
  , stages :=
      [ { name := "ingest", inputs := [InputRef.external "gcs-csv"]
        , outputs := ["examples"], executor := "Dataflow" }
      , { name := "statistics", inputs := [InputRef.stageOutput "ingest"]
        , outputs := ["statistics"], executor := "Dataflow" }
      , { name := "schema", inputs := [InputRef.stageOutput "statistics"]
        , outputs := ["schema"], executor := "Dataflow" }
      , { name := "transform", inputs := [InputRef.stageOutput "schema"]
        , outputs := ["transformed"], executor := "Dataflow" }
      , { name := "train", inputs := [InputRef.stageOutput "transform"]
        , outputs := ["model"], executor := "AIPlatform" }
      , { name := "push", inputs := [InputRef.stageOutput "train"]
        , outputs := ["pushed-model"], executor := "AIPlatform" } ]
  , params := [("project", "p1"), ("region", "us-central1"), ("pipeline_name", "news")] }

/-- Claim C7: with parameters project "p1", region "us-central1",
pipeline_name "news" and a 6-stage linear graph, compilation yields an
archive named "news.yaml", and submitting that archive with run name "run-1"
returns a non-empty run identifier string. -/
theorem news_example_compiles_and_submits :
    ∃ a rid, compile newsPipeline = .ok a ∧ a.name = "news.yaml" ∧
      (submit demoOrchestrator a "run-1").result = .ok rid ∧ rid ≠ "" :=
  ⟨{ name := "news.yaml", content := serialize newsPipeline }, "id-run-1",
    rfl, rfl, rfl, by decide⟩

/-- Modelled from the spec: the tag-creation event on the source repository
that triggers the CI workflow, carrying the tag name (spec section 6). -/
structure TagEvent where
  tagName : String

/-- Modelled from the spec: the CI workflow appends the tag name carried by
the trigger event to the pipeline name to designate the version
(README lines 119-121). -/
def versionedName (base : String) (e : TagEvent) : String :=
  base ++ "-" ++ e.tagName

/-- Modelled from the spec: the triggered CI compilation builds the pipeline
under its versioned name and writes the archive, named after that versioned
pipeline name, through the file system (spec section 6). -/
def ciCompile (fs : FileSystem) (base : String) (e : TagEvent)
    (stages : List Stage) (params : List (String × String)) :
    FileSystem × Except PipelineError Archive :=
  compileToFile fs
    { name := versionedName base e, stages := stages, params := params }
    (versionedName base e ++ ".yaml")

/-- The pipeline compiled by the CI flow for base name "covertype" and tag
"v1.0". -/
def tagDemoPipeline : Pipeline :=
  { name := versionedName "covertype" { tagName := "v1.0" }
  , stages := [], params := [] }

/-- Claim C8: a successful triggered compilation persists exactly one archive
file — the file system grows by exactly the one file at the archive path —
and the archive name is derived from the pipeline name together with the tag
carried by the triggering tag-creation event. -/
theorem ciCompile_one_versioned_archive (fs : FileSystem) (base : String) (e : TagEvent)
    (stages : List Stage) (params : List (String × String)) (a : Archive)
    (h : compile { name := versionedName base e, stages := stages, params := params } = .ok a) :
    a.name = versionedName base e ++ ".yaml" ∧
      (ciCompile fs base e stages params).1 =
        (versionedName base e ++ ".yaml", a.content) :: fs := by
  have hname : a.name = versionedName base e ++ ".yaml" := by
    unfold compile at h
    cases hf : firstOffender
        { name := versionedName base e, stages := stages, params := params } with
    | some s =>
        rw [hf] at h
        exact absurd h (by simp)
    | none =>
        rw [hf] at h
        injection h with h
        rw [← h]
  refine ⟨hname, ?_⟩
  simp [ciCompile, compileToFile, h]

/-- Witness for C8: the triggered compilation for base name "covertype" and
tag "v1.0" writes the single archive "covertype-v1.0.yaml". -/
theorem ciCompile_one_versioned_archive_witness :
    Archive.name
        { name := "covertype-v1.0.yaml", content := serialize tagDemoPipeline } =
      versionedName "covertype" { tagName := "v1.0" } ++ ".yaml" ∧
      (ciCompile [] "covertype" { tagName := "v1.0" } [] []).1 =
        (versionedName "covertype" { tagName := "v1.0" } ++ ".yaml",
          Archive.content
            { name := "covertype-v1.0.yaml", content := serialize tagDemoPipeline }) :: [] :=
  ciCompile_one_versioned_archive [] "covertype" { tagName := "v1.0" } [] []
    { name := "covertype-v1.0.yaml", content := serialize tagDemoPipeline } (by rfl)

/-- Outcome of one `train_evaluate` call (notebook
`covertype_experimentation.ipynb`, training application `train.py`): the rows
the classifier was fitted on, the hyperparameter-tuning metrics reported, and
the model files saved (path paired with the pickled model). -/
structure TrainEvalResult (Row Model Metric : Type) where
  fittedOn : List Row
  reported : List (String × Metric)
  saved : List (String × Model)

/-- Embedding of `train_evaluate` from the notebook's `train.py`: the
training and validation CSVs are read; when `hptune` is false the validation
frame is concatenated onto the training frame; the sklearn pipeline is fitted
on the (possibly concatenated) training frame with the given `alpha` and
`max_iter`; when `hptune` is true the validation accuracy is reported to
hypertune under the tag "accuracy"; when `hptune` is false the fitted model
is pickled as `model.pkl` and copied to `job_dir`.  Reading, fitting and
scoring are the external pandas/sklearn operations, abstracted as the
function parameters `readCsv`, `fit` and `score`. -/
def train_evaluate {Row Model Metric : Type}
    (readCsv : String → List Row)
    (fit : ℚ → ℕ → List Row → Model)
    (score : Model → List Row → Metric)
    (job_dir training_dataset_path validation_dataset_path : String)
    (alpha : ℚ) (max_iter : ℕ) (hptune : Bool) :
    TrainEvalResult Row Model Metric :=
  let df_train := readCsv training_dataset_path
  let df_validation := readCsv validation_dataset_path
  let df_train' := if !hptune then df_train ++ df_validation else df_train
  let model := fit alpha max_iter df_train'
  { fittedOn := df_train'
  , reported := if hptune then [("accuracy", score model df_validation)] else []
  , saved := if !hptune then [(job_dir ++ "/model.pkl", model)] else [] }

/-- Claim C9: with `hptune` false, `train_evaluate` fits the classifier on
the concatenation of the training and validation datasets and saves the
pickled model to `job_dir` as `model.pkl` (reporting no tuning metric); with
`hptune` true, it fits on the training dataset only, reports the
validation-set accuracy under the tuning-metric tag "accuracy", and writes no
model file. -/
theorem train_evaluate_hptune_behavior {Row Model Metric : Type}
    (readCsv : String → List Row)
    (fit : ℚ → ℕ → List Row → Model)
    (score : Model → List Row → Metric)
    (job_dir tpath vpath : String) (alpha : ℚ) (max_iter : ℕ) :
    (train_evaluate readCsv fit score job_dir tpath vpath alpha max_iter false).fittedOn
        = readCsv tpath ++ readCsv vpath
    ∧ (train_evaluate readCsv fit score job_dir tpath vpath alpha max_iter false).saved
        = [(job_dir ++ "/model.pkl", fit alpha max_iter (readCsv tpath ++ readCsv vpath))]
    ∧ (train_evaluate readCsv fit score job_dir tpath vpath alpha max_iter false).reported
        = []
    ∧ (train_evaluate readCsv fit score job_dir tpath vpath alpha max_iter true).fittedOn
        = readCsv tpath
    ∧ (train_evaluate readCsv fit score job_dir tpath vpath alpha max_iter true).reported
        = [("accuracy", score (fit alpha max_iter (readCsv tpath)) (readCsv vpath))]
    ∧ (train_evaluate readCsv fit score job_dir tpath vpath alpha max_iter true).saved
        = [] :=
  ⟨rfl, rfl, rfl, rfl, rfl, rfl⟩

/-- The Terraform input variables consumed by
`lab-02-environment-kfp/terraform/main.tf`. -/
structure TerraformVars where
  project_id : String
  name_prefix : String
  region : String
  zone : String
  cluster_node_count : Nat
  cluster_node_type : String

/-- The `gke` module instantiation produced by `main.tf` (fields taken from
the `module "kfp_gke_cluster"` block). -/
structure GkeClusterModule where
  name : String
  location : String
  description : String
  node_count : Nat
  node_type : String

/-- The `vpc` module instantiation produced by `main.tf` (fields taken from
the `module "kfp_gke_vpc"` block). -/
structure VpcModule where
  region : String
  network_name : String
  subnet_name : String

/-- The `mysql` module instantiation produced by `main.tf` (fields taken from
the `module "ml_metadata_mysql"` block). -/
structure MysqlModule where
  region : String
  name : String

/-- Embedding of `module "kfp_gke_vpc"` from `main.tf`: the VPC is placed in
`var.region`. -/
def kfp_gke_vpc (v : TerraformVars) : VpcModule :=
  { region := v.region
  , network_name := v.name_prefix ++ "-network"
  , subnet_name := v.name_prefix ++ "-subnet" }

/-- Embedding of `module "kfp_gke_cluster"` from `main.tf`: the cluster
location is `var.zone != "" ? var.zone : var.region`. -/
def kfp_gke_cluster (v : TerraformVars) : GkeClusterModule :=
  { name := v.name_prefix ++ "-cluster"
  , location := if v.zone ≠ "" then v.zone else v.region
  , description := "KFP GKE cluster"
  , node_count := v.cluster_node_count
  , node_type := v.cluster_node_type }

/-- Embedding of `module "ml_metadata_mysql"` from `main.tf`: the MySQL
instance is placed in `var.region`. -/
def ml_metadata_mysql (v : TerraformVars) : MysqlModule :=
  { region := v.region
  , name := v.name_prefix ++ "-metadata" }

/-- Concrete Terraform variables with a non-empty zone. -/
def demoVars : TerraformVars :=
  { project_id := "p1", name_prefix := "kfp", region := "us-central1"
  , zone := "us-central1-a", cluster_node_count := 3
  , cluster_node_type := "n1-standard-8" }

/-- Claim C10: the GKE cluster is placed in `var.zone` whenever `var.zone` is
non-empty and in `var.region` otherwise, while the VPC and the MySQL instance
are placed by `var.region` alone. -/
theorem terraform_placement (v : TerraformVars) :
    (v.zone ≠ "" → (kfp_gke_cluster v).location = v.zone)
    ∧ (v.zone = "" → (kfp_gke_cluster v).location = v.region)
    ∧ (kfp_gke_vpc v).region = v.region
    ∧ (ml_metadata_mysql v).region = v.region := by
  refine ⟨?_, ?_, rfl, rfl⟩
  · intro h
    simp [kfp_gke_cluster, h]
  · intro h
    simp [kfp_gke_cluster, h]

/-- Witness for C10: with zone "us-central1-a" the cluster lands in the zone
while the VPC and MySQL instance stay in region "us-central1". -/
theorem terraform_placement_witness :
    (kfp_gke_cluster demoVars).location = "us-central1-a" ∧
      (kfp_gke_vpc demoVars).region = "us-central1" ∧
      (ml_metadata_mysql demoVars).region = "us-central1" :=
  ⟨(terraform_placement demoVars).1 (by decide),
    (terraform_placement demoVars).2.2.1,
    (terraform_placement demoVars).2.2.2⟩
